import Mathlib

/-!
Verification of the `google-maps-mcp` protocol adapter (`src/index.ts`).

The development shallowly embeds the response-reshaping and dispatch logic of
the adapter.  JavaScript semantics relevant to the embedded code are made
explicit:

* optional / possibly-`undefined` values are `Option`;
* JavaScript truthiness (`x || d`, `x ? a : b`) is modelled per type
  (`0`, `""`, `undefined`, `null`, `false` are falsy; arrays and objects are
  always truthy);
* `String.prototype.replace` with a string pattern replaces only the first
  occurrence;
* accessing a member of `undefined` throws a `TypeError`; thrown exceptions
  are modelled with `Except String`;
* `JSON.stringify` omits object keys whose value is `undefined`.

Regular expressions from the source are embedded as regex ASTs and matched
with a standard Brzozowski-derivative matcher.
-/

namespace GMaps

/-- JavaScript whitespace class `\s` (the members relevant to this code base:
ASCII whitespace plus NBSP, BOM and the Unicode line/paragraph separators). -/
def jsWhitespaceB (c : Char) : Bool :=
  c = ' ' || c = '\t' || c = '\n' || c = '\r' || c = '\x0b' || c = '\x0c' ||
  c = ' ' || c = ' ' || c = ' ' || c = '﻿'

/-- JavaScript regex `.` (dot without the `s` flag): any char except line
terminators. -/
def jsDotB (c : Char) : Bool :=
  !(c = '\n' || c = '\r' || c = ' ' || c = ' ')

/-- Truthiness of an optional string (absent and `""` are falsy). -/
def jsTruthyStr : Option String → Bool
  | some s => !(s = "")
  | none => false

/-- Truthiness of an optional number (absent and `0` are falsy). -/
def jsTruthyNat : Option Nat → Bool
  | some n => !(n = 0)
  | none => false

/-- Truthiness of an optional rational (absent and `0` are falsy). -/
def jsTruthyRat : Option Rat → Bool
  | some q => !(q = 0)
  | none => false

/-- Model of `x || d` for an optional string `x` and default `d`. -/
def jsOrStr (o : Option String) (d : String) : String :=
  match o with
  | some s => if s = "" then d else s
  | none => d

/-- Model of `x || d` for an optional rational `x` and default `d`. -/
def jsOrRat (o : Option Rat) (d : Rat) : Rat :=
  match o with
  | some q => if q = 0 then d else q
  | none => d

/-- Model of `x || d` for an optional natural `x` and default `d`. -/
def jsOrNat (o : Option Nat) (d : Nat) : Nat :=
  match o with
  | some n => if n = 0 then d else n
  | none => d

/-- Model of `x || d` for an optional boolean `x` and default `d`. -/
def jsOrBool (o : Option Bool) (d : Bool) : Bool :=
  match o with
  | some b => if b then b else d
  | none => d

/-- Model of `String(x)` for a possibly-`undefined` number (`String(undefined)` is
`"undefined"`). -/
def jsStringOfOptNat : Option Nat → String
  | some n => toString n
  | none => "undefined"

/-- Model of `s.padStart(2, '0')`. -/
def padStart2 (s : String) : String :=
  if s.length ≥ 2 then s else
  if s.length = 1 then "0" ++ s else "00"

/-- Digits of a decimal numeral folded into a natural number. -/
def digitsToNat (cs : List Char) : Nat :=
  cs.foldl (fun a c => a * 10 + (c.toNat - 48)) 0

/-- Parse an unsigned decimal numeral `digits[.digits]` into a rational
(junk after the recognised portion is ignored; only ever applied to strings
already validated by a regex). -/
def parseUnsignedRat (cs : List Char) : Rat :=
  let intPart := cs.takeWhile Char.isDigit
  let rest := cs.drop intPart.length
  let frac : Rat :=
    match rest with
    | '.' :: t =>
      let fds := t.takeWhile Char.isDigit
      (digitsToNat fds : Rat) / ((10 : Rat) ^ fds.length)
    | _ => 0
  (digitsToNat intPart : Rat) + frac

/-- Parse a decimal numeral with optional sign. -/
def parseSignedRat (cs : List Char) : Rat :=
  match cs with
  | '-' :: t => -(parseUnsignedRat t)
  | '+' :: t => parseUnsignedRat t
  | _ => parseUnsignedRat cs

/-- Model of `Number(s)` restricted to the decimal shapes this adapter feeds it:
surrounding whitespace is trimmed, then an optionally signed decimal numeral
is read (`Number("")` is `0`; non-numeric input, which the adapter never
passes here, is not modelled as NaN but parses to the recognised prefix). -/
def jsNumber (s : String) : Rat :=
  parseSignedRat (((s.data.dropWhile jsWhitespaceB).reverse.dropWhile jsWhitespaceB).reverse)

/-- Model of `parseInt(s)`: optional leading whitespace and sign, then leading decimal
digits; `none` models NaN (no digits). -/
def parseIntJS (s : String) : Option Int :=
  let cs := s.data.dropWhile jsWhitespaceB
  let (sign, body) : Int × List Char :=
    match cs with
    | '-' :: t => (-1, t)
    | '+' :: t => (1, t)
    | _ => (1, cs)
  let ds := body.takeWhile Char.isDigit
  if ds.isEmpty then none else some (sign * (digitsToNat ds : Int))

/-- Split a list at the first occurrence of a pattern: returns the part
before the occurrence and the part after it. -/
def splitOnFirst (pat : List Char) : List Char → Option (List Char × List Char)
  | [] => if pat.isEmpty then some ([], []) else none
  | c :: rest =>
    if pat.isPrefixOf (c :: rest) then some ([], List.drop pat.length (c :: rest))
    else (splitOnFirst pat rest).map (fun p => (c :: p.1, p.2))

/-- Model of `s.replace(pat, rep)` with a *string* pattern: only the first occurrence
is replaced. -/
def jsReplaceFirstL (pat rep s : List Char) : List Char :=
  match splitOnFirst pat s with
  | none => s
  | some (pre, post) => pre ++ rep ++ post

/-- Model of `s.replace(pat, rep)` on `String`. -/
def jsReplaceFirst (pat rep s : String) : String :=
  ⟨jsReplaceFirstL pat.data rep.data s.data⟩

/-- Split a character list on every occurrence of a separator character
(JavaScript `String.prototype.split` with a single-char separator). -/
def splitOnChar (sep : Char) : List Char → List (List Char)
  | [] => [[]]
  | c :: rest =>
    let r := splitOnChar sep rest
    if c = sep then [] :: r
    else
      match r with
      | [] => [[c]]
      | h :: t => (c :: h) :: t

/-- Model of `s.split(sep)` on `String`. -/
def jsSplit (sep : Char) (s : String) : List String :=
  (splitOnChar sep s.data).map (fun l => ⟨l⟩)

/-! ### Regular expressions

A small regex AST together with the standard Brzozowski-derivative matcher.
`reMatch r s` decides whether `s` (as a whole) belongs to the language of
`r`, which is exactly what `regex.test` computes for a `^...$`-anchored
JavaScript regex. -/

inductive RE where
  | emp : RE
  | eps : RE
  | cls (p : Char → Bool) : RE
  | cat (a b : RE) : RE
  | alt (a b : RE) : RE
  | star (a : RE) : RE

namespace RE

/-- Does the regex accept the empty string? -/
def nullable : RE → Bool
  | emp => false
  | eps => true
  | cls _ => false
  | cat a b => nullable a && nullable b
  | alt a b => nullable a || nullable b
  | star _ => true

/-- Smart alternation (prunes the empty language to keep derivatives small). -/
def altS : RE → RE → RE
  | emp, b => b
  | a, emp => a
  | a, b => alt a b

/-- Smart concatenation. -/
def catS : RE → RE → RE
  | emp, _ => emp
  | _, emp => emp
  | eps, b => b
  | a, eps => a
  | a, b => cat a b

/-- Brzozowski derivative with respect to one character. -/
def deriv : RE → Char → RE
  | emp, _ => emp
  | eps, _ => emp
  | cls p, c => if p c then eps else emp
  | cat a b, c =>
    if nullable a then altS (catS (deriv a c) b) (deriv b c)
    else catS (deriv a c) b
  | alt a b, c => altS (deriv a c) (deriv b c)
  | star a, c => catS (deriv a c) (star a)

/-- Whole-string matching by iterated derivatives. -/
def reMatch (r : RE) (s : List Char) : Bool :=
  nullable (s.foldl deriv r)

/-- Single literal character. -/
def chr (c : Char) : RE := cls (fun x => x = c)

/-- Literal string. -/
def strRE (s : List Char) : RE :=
  match s with
  | [] => eps
  | c :: t => cat (chr c) (strRE t)

/-- Regex `r?`. -/
def opt (r : RE) : RE := alt eps r

/-- Regex `r+`. -/
def plus (r : RE) : RE := cat r (star r)

/-- Regex `\d`. -/
def digit : RE := cls Char.isDigit

/-- Character range class such as `[1-8]`. -/
def range (lo hi : Char) : RE := cls (fun c => lo ≤ c && c ≤ hi)

end RE

open RE

/-! ### Coordinate-vs-address classification (`handleDistanceMatrix`,
`handleDirections`)

The source tests each origin/destination string against
`/^[-+]?([1-8]?\d(\.\d+)?|90(\.0+)?),\s*[-+]?(180(\.0+)?|((1[0-7]\d)|([1-9]?\d))(\.\d+)?)$/`. -/

/-- Regex `[-+]?`. -/
def signOpt : RE := opt (alt (chr '-') (chr '+'))

/-- Regex `(\.\d+)?`. -/
def fracOpt : RE := opt (cat (chr '.') (plus digit))

/-- Regex `([1-8]?\d(\.\d+)?|90(\.0+)?)` — the latitude alternative of the source
regex. -/
def latPartRE : RE :=
  alt (cat (opt (range '1' '8')) (cat digit fracOpt))
      (cat (strRE "90".data) (opt (cat (chr '.') (plus (chr '0')))))

/-- Regex `(180(\.0+)?|((1[0-7]\d)|([1-9]?\d))(\.\d+)?)` — the longitude
alternative of the source regex. -/
def lngPartRE : RE :=
  alt (cat (strRE "180".data) (opt (cat (chr '.') (plus (chr '0')))))
      (cat (alt (cat (chr '1') (cat (range '0' '7') digit))
                (cat (opt (range '1' '9')) digit))
           fracOpt)

/-- The coordinate-detection regex of `handleDistanceMatrix` (line 761). -/
def coordRegexDM : RE :=
  cat signOpt (cat latPartRE (cat (chr ',') (cat (star (cls jsWhitespaceB))
    (cat signOpt lngPartRE))))

/-- The coordinate-detection regex of `handleDirections` (line 945); the
source repeats the identical literal. -/
def coordRegexDir : RE :=
  cat signOpt (cat latPartRE (cat (chr ',') (cat (star (cls jsWhitespaceB))
    (cat signOpt lngPartRE))))

/-- A waypoint sent to the Routes API: either a `location.latLng` pair or a
free-text `address`. -/
inductive WaypointInput where
  | coordWp (lat lng : Rat) : WaypointInput
  | addressWp (s : String) : WaypointInput
deriving DecidableEq

/-- Is the waypoint a coordinate pair? -/
def WaypointInput.isCoordWp : WaypointInput → Bool
  | .coordWp _ _ => true
  | .addressWp _ => false

/-- Model of `const [lat, lng] = origin.split(',').map(Number)` — the two coordinates
read from a string already known to match the coordinate regex. -/
def coordsOf (s : String) : Rat × Rat :=
  let parts := jsSplit ',' s
  (jsNumber (parts.headD ""), jsNumber ((parts.get? 1).getD ""))

/-- Origin/destination classification in `handleDistanceMatrix`
(lines 763–805): regex match ⇒ `location.latLng` waypoint, else `address`. -/
def dmToWaypoint (s : String) : WaypointInput :=
  if reMatch coordRegexDM s.data then
    WaypointInput.coordWp (coordsOf s).1 (coordsOf s).2
  else WaypointInput.addressWp s

/-- Origin/destination classification in `handleDirections`
(lines 947–973). -/
def dirToWaypoint (s : String) : WaypointInput :=
  if reMatch coordRegexDir s.data then
    WaypointInput.coordWp (coordsOf s).1 (coordsOf s).2
  else WaypointInput.addressWp s

/-! The specification instead states the regex
`^-?\d{1,2}(\.\d+)?,\s*-?\d{1,3}(\.\d+)?$` together with the numeric ranges
lat ∈ [-90,90], lng ∈ [-180,180]. -/

/-- Regex `-?\d{1,2}(\.\d+)?` — spec-side latitude. -/
def specLatRE : RE :=
  cat (opt (chr '-')) (cat digit (cat (opt digit) fracOpt))

/-- Regex `-?\d{1,3}(\.\d+)?` — spec-side longitude. -/
def specLngRE : RE :=
  cat (opt (chr '-')) (cat digit (cat (opt (cat digit (opt digit))) fracOpt))

/-- Modelled from the spec: the classification regex
`^-?\d{1,2}(\.\d+)?,\s*-?\d{1,3}(\.\d+)?$` stated in the specification
(section 8) as the coordinate test. -/
def specCoordRE : RE :=
  cat specLatRE (cat (chr ',') (cat (star (cls jsWhitespaceB)) specLngRE))

/-- An unnormalised decimal fraction `num / den` (`den` a positive power of
ten as produced by parsing); used so that comparisons reduce by kernel
computation, which normalised `Rat` arithmetic does not. -/
structure DecNum where
  num : Int
  den : Nat
deriving DecidableEq

/-- Exact order on decimal fractions by cross-multiplication. -/
def DecNum.leD (a b : DecNum) : Bool :=
  a.num * (b.den : Int) ≤ b.num * (a.den : Int)

/-- Parse an unsigned decimal numeral into a `DecNum`. -/
def parseUnsignedDec (cs : List Char) : DecNum :=
  let intPart := cs.takeWhile Char.isDigit
  let rest := cs.drop intPart.length
  match rest with
  | '.' :: t =>
    let fds := t.takeWhile Char.isDigit
    ⟨(digitsToNat intPart : Int) * (10 ^ fds.length : Nat) + (digitsToNat fds : Int),
     10 ^ fds.length⟩
  | _ => ⟨(digitsToNat intPart : Int), 1⟩

/-- Parse a signed decimal numeral into a `DecNum`. -/
def parseSignedDec (cs : List Char) : DecNum :=
  match cs with
  | '-' :: t => let u := parseUnsignedDec t; ⟨-u.num, u.den⟩
  | '+' :: t => parseUnsignedDec t
  | _ => parseUnsignedDec cs

/-- The rational value of a `DecNum`. -/
def DecNum.toRat (a : DecNum) : Rat := (a.num : Rat) / (a.den : Rat)

/-- Modelled from the spec: a string is a coordinate pair when it matches
`specCoordRE` *and* the parsed latitude lies in [-90,90] and the parsed
longitude in [-180,180]. -/
def specIsCoord (s : String) : Bool :=
  reMatch specCoordRE s.data &&
  (let p := match splitOnFirst [','] s.data with
            | some q => q
            | none => (s.data, [])
   let lat := parseSignedDec p.1
   let lng := parseSignedDec (p.2.dropWhile jsWhitespaceB)
   DecNum.leD ⟨-90, 1⟩ lat && DecNum.leD lat ⟨90, 1⟩ &&
   DecNum.leD ⟨-180, 1⟩ lng && DecNum.leD lng ⟨180, 1⟩)

/-! ### Travel-mode mapping and Routes request bodies -/

/-- Source `travelModeMap` (lines 750–756 and 930–936). -/
def travelModeMap (m : String) : Option String :=
  if m = "driving" then some "DRIVE"
  else if m = "walking" then some "WALK"
  else if m = "bicycling" then some "BICYCLE"
  else if m = "transit" then some "TRANSIT"
  else if m = "two_wheeler" then some "TWO_WHEELER"
  else none

/-- Model of `travelModeMap[mode] || "DRIVE"`, with the `mode = "driving"` default
parameter applied when the argument is absent. -/
def googleTravelMode (mode : Option String) : String :=
  jsOrStr (travelModeMap (mode.getD "driving")) "DRIVE"

/-- The JSON body `handleDistanceMatrix` posts to `computeRouteMatrix`
(lines 808–818). -/
structure DMRequestBody where
  origins : List WaypointInput
  destinations : List WaypointInput
  travelMode : String
  routingPreference : Option String
deriving DecidableEq

/-- Request-body construction in `handleDistanceMatrix`: waypoint
classification, travel-mode mapping, and `routingPreference` attached only
for `DRIVE`/`TWO_WHEELER`. -/
def dmRequestBody (origins destinations : List String) (mode : Option String) :
    DMRequestBody :=
  let tm := googleTravelMode mode
  { origins := origins.map dmToWaypoint
    destinations := destinations.map dmToWaypoint
    travelMode := tm
    routingPreference :=
      if tm = "DRIVE" || tm = "TWO_WHEELER" then some "TRAFFIC_AWARE" else none }

/-- Fixed route modifiers of `handleDirections` (lines 981–985). -/
structure RouteModifiers where
  avoidTolls : Bool
  avoidHighways : Bool
  avoidFerries : Bool
deriving DecidableEq

/-- The JSON body `handleDirections` posts to `computeRoutes`
(lines 976–993). -/
structure DirRequestBody where
  origin : WaypointInput
  destination : WaypointInput
  travelMode : String
  computeAlternativeRoutes : Bool
  routeModifiers : RouteModifiers
  languageCode : String
  routingPreference : Option String
deriving DecidableEq

/-- Request-body construction in `handleDirections`. -/
def dirRequestBody (origin destination : String) (mode : Option String) :
    DirRequestBody :=
  let tm := googleTravelMode mode
  { origin := dirToWaypoint origin
    destination := dirToWaypoint destination
    travelMode := tm
    computeAlternativeRoutes := false
    routeModifiers := ⟨false, false, false⟩
    languageCode := "en-US"
    routingPreference :=
      if tm = "DRIVE" || tm = "TWO_WHEELER" then some "TRAFFIC_AWARE" else none }

/-! ### Price-level mapping (`getPriceLevelValue`, lines 429–439) -/

/-- The `priceLevelMap` lookup table. -/
def priceLevelMap : List (String × Nat) :=
  [("PRICE_LEVEL_FREE", 0),
   ("PRICE_LEVEL_INEXPENSIVE", 1),
   ("PRICE_LEVEL_MODERATE", 2),
   ("PRICE_LEVEL_EXPENSIVE", 3),
   ("PRICE_LEVEL_VERY_EXPENSIVE", 4)]

/-- Property names a plain object literal inherits from `Object.prototype`;
reading any of them yields a non-nullish value (a function, or
`Object.prototype` itself for the `__proto__` accessor). -/
def objectProtoKeys : List String :=
  ["constructor", "hasOwnProperty", "isPrototypeOf", "propertyIsEnumerable",
   "toLocaleString", "toString", "valueOf", "__proto__",
   "__defineGetter__", "__defineSetter__", "__lookupGetter__", "__lookupSetter__"]

/-- Result of `priceLevelMap[priceLevel] ?? 0`: either a number (an own
entry of the table, or the `?? 0` fallback for a truly absent property) or
the non-numeric value inherited from `Object.prototype` — `??` falls back
only on `null`/`undefined`, so an inherited function or object passes
through. -/
inductive PriceLevelValue where
  | num (n : Nat) : PriceLevelValue
  | inherited (name : String) : PriceLevelValue
deriving DecidableEq

/-- Model of `priceLevelMap[priceLevel] ?? 0` (line 438): property access on
the object literal finds an own key first, then consults the
`Object.prototype` chain; only a property absent from both gives
`undefined` and triggers the `?? 0` fallback (the stored `0` for
`PRICE_LEVEL_FREE` is preserved, `??` not firing on `0`). -/
def getPriceLevelValue (priceLevel : String) : PriceLevelValue :=
  match priceLevelMap.lookup priceLevel with
  | some n => .num n
  | none =>
    if priceLevel ∈ objectProtoKeys then .inherited priceLevel
    else .num 0

/-! ### Photo reference extraction (`handlePlaceDetails`, line 693)

`photo.name.replace('places/', '').replace(/\/photos\/.*/, '')`: the first
`replace` removes the first literal occurrence of `places/`; the second
removes, from the first occurrence of `/photos/` on, that occurrence and the
maximal following run of non-line-terminator characters (the regex
`/\/photos\/.*/`). -/

/-- The second `replace`: delete the leftmost match of `/\/photos\/.*/`. -/
def stripPhotosTail (s : List Char) : List Char :=
  match splitOnFirst "/photos/".data s with
  | none => s
  | some (pre, post) => pre ++ post.dropWhile jsDotB

/-- Output `photo_reference` as computed by the source. -/
def photoReference (name : String) : String :=
  ⟨stripPhotosTail (jsReplaceFirstL "places/".data [] name.data)⟩

/-! ### The uniform result envelope -/

/-- One `{type: "text", text: ...}` content entry. -/
structure TextContent where
  type : String
  text : String
deriving DecidableEq

/-- The uniform `{content, isError}` envelope every tool returns. -/
structure ToolResult where
  content : List TextContent
  isError : Bool
deriving DecidableEq

/-- The dispatcher's `catch` (lines 1136–1144): a thrown exception becomes
`{content:[{type:"text", text:"Error: <message>"}], isError:true}`. -/
def catchEnvelope : Except String ToolResult → ToolResult
  | .ok r => r
  | .error msg => ⟨[⟨"text", "Error: " ++ msg⟩], true⟩

/-! ### Geocode / reverse geocode (`handleGeocode`, `handleReverseGeocode`)

The HTTP fetch is modelled by passing the parsed upstream response as an
argument; only the response-processing part of each handler is embedded.
`JSON.stringify`'s exact text (indentation, escaping) is abstracted by a
plain renderer — no claim depends on the text of a success envelope. -/

/-- Legacy geocoding `geometry.location`. -/
structure GeoLocation where
  lat : Rat
  lng : Rat
deriving DecidableEq

/-- Legacy geocoding `geometry`. -/
structure GeoGeometry where
  location : GeoLocation
deriving DecidableEq

/-- One entry of legacy `address_components`. -/
structure GeoAddressComp where
  long_name : String
  short_name : String
  types : List String
deriving DecidableEq

/-- One result of the legacy Geocoding API. -/
structure GeoResult where
  place_id : String
  formatted_address : String
  geometry : GeoGeometry
  address_components : List GeoAddressComp
deriving DecidableEq

/-- A legacy Geocoding API response. -/
structure GeocodeData where
  status : String
  error_message : Option String
  results : List GeoResult
deriving DecidableEq

/-- The `TypeError` message thrown by `data.results[0].geometry` when
`results` is empty. -/
def undefGeometryMsg : String :=
  "Cannot read properties of undefined (reading 'geometry')"

/-- The `TypeError` message thrown by `data.results[0].formatted_address`
when `results` is empty. -/
def undefFormattedAddrMsg : String :=
  "Cannot read properties of undefined (reading 'formatted_address')"

/-- Renderer for a rational in a success text. -/
def renderRat (q : Rat) : String := toString q.num ++ "/" ++ toString q.den

/-- Abstracted success text of `handleGeocode`. -/
def renderGeocodeSuccess (r : GeoResult) : String :=
  "location:(" ++ renderRat r.geometry.location.lat ++ "," ++
    renderRat r.geometry.location.lng ++ ") formatted_address:" ++
    r.formatted_address ++ " place_id:" ++ r.place_id

/-- Abstracted success text of `handleReverseGeocode`. -/
def renderReverseGeocodeSuccess (r : GeoResult) : String :=
  "formatted_address:" ++ r.formatted_address ++ " place_id:" ++ r.place_id ++
    " address_components:" ++
    String.intercalate "," (r.address_components.map (·.long_name))

/-- Response processing of `handleGeocode` (lines 450–471): non-`OK` status
becomes an error envelope; otherwise `results[0]` is dereferenced
unconditionally, so an empty `results` throws. -/
def handleGeocodeResp (data : GeocodeData) : Except String ToolResult :=
  if data.status ≠ "OK" then
    .ok ⟨[⟨"text", "Geocoding failed: " ++ jsOrStr data.error_message data.status⟩], true⟩
  else
    match data.results.head? with
    | none => .error undefGeometryMsg
    | some r => .ok ⟨[⟨"text", renderGeocodeSuccess r⟩], false⟩

/-- Response processing of `handleReverseGeocode` (lines 481–502). -/
def handleReverseGeocodeResp (data : GeocodeData) : Except String ToolResult :=
  if data.status ≠ "OK" then
    .ok ⟨[⟨"text", "Reverse geocoding failed: " ++ jsOrStr data.error_message data.status⟩], true⟩
  else
    match data.results.head? with
    | none => .error undefFormattedAddrMsg
    | some r => .ok ⟨[⟨"text", renderReverseGeocodeSuccess r⟩], false⟩

/-! ### Distance matrix response processing (`handleDistanceMatrix`,
lines 830–884) -/

/-- One element of the flat `computeRouteMatrix` response, as cast at
line 831 (every field optional; `error` models the optional `error` object
and its optional `message`). -/
structure RouteItem where
  originIndex : Option Nat
  destinationIndex : Option Nat
  status : Option String
  distanceMeters : Option Nat
  duration : Option String
  error : Option (Option String)
deriving DecidableEq

/-- The `TypeError` message thrown by `item.duration.replace` when
`duration` is `undefined`. -/
def undefReplaceMsg : String :=
  "Cannot read properties of undefined (reading 'replace')"

/-- The `TypeError` message thrown by `resultMatrix[originIdx].elements`
when `originIdx` is `undefined` or out of range. -/
def undefElementsMsg : String :=
  "Cannot read properties of undefined (reading 'elements')"

/-- Model of `(n / 1000).toFixed(1) + " km"`, modelled as exact decimal rounding
(round half away from zero on the nonnegative metres value); the
floating-point noise of the source's IEEE division is abstracted. -/
def formatKm (n : Nat) : String :=
  let t := (n + 50) / 100
  toString (t / 10) ++ "." ++ toString (t % 10) ++ " km"

/-- A `{text, value}` duration; `value = none` models NaN. -/
structure DurationOut where
  text : String
  value : Option Int
deriving DecidableEq

/-- A `{text, value}` distance; `value = none` models `undefined` (the key
is omitted by `JSON.stringify`). -/
structure DistanceOut where
  text : String
  value : Option Nat
deriving DecidableEq

/-- One reshaped matrix element (lines 860–870). -/
structure DMElement where
  status : String
  duration : DurationOut
  distance : DistanceOut
deriving DecidableEq

/-- Element construction for one matrix item:
`status: item.status || "OK"`,
`duration.text: item.duration ? item.duration.replace('s','') : 'Unknown'`,
`duration.value: item.distanceMeters ? parseInt(item.duration.replace('s','')) : 0`
(note: guarded by `distanceMeters`, and throws when `distanceMeters` is
truthy while `duration` is absent),
`distance.text: item.distanceMeters ? '<km> km' : 'Unknown'`,
`distance.value: item.distanceMeters`. -/
def buildElement (it : RouteItem) : Except String DMElement := do
  let dv : Option Int ←
    if jsTruthyNat it.distanceMeters then
      match it.duration with
      | some s => pure (parseIntJS (jsReplaceFirst "s" "" s))
      | none => Except.error undefReplaceMsg
    else pure (some 0)
  pure
    { status := jsOrStr it.status "OK"
      duration :=
        { text :=
            if jsTruthyStr it.duration then jsReplaceFirst "s" "" (it.duration.getD "")
            else "Unknown"
          value := dv }
      distance :=
        { text :=
            if jsTruthyNat it.distanceMeters then formatKm (it.distanceMeters.getD 0)
            else "Unknown"
          value := it.distanceMeters } }

/-- One row `{elements: [...]}` of the reassembled matrix. -/
structure DMRow where
  elements : List (Option DMElement)
deriving DecidableEq

/-- Model of `row.elements[destIdx] = e`: in-range assignment replaces; an
out-of-range JavaScript array assignment extends the array (holes read back
as `undefined`/`null`). -/
def setCellRow (row : List (Option DMElement)) (j : Nat) (e : DMElement) :
    List (Option DMElement) :=
  if j < row.length then row.set j (some e)
  else row ++ List.replicate (j - row.length) none ++ [some e]

/-- Processing of one flat result (lines 856–871):
`resultMatrix[item.originIndex].elements[item.destinationIndex] = element`.
A missing or out-of-range `originIndex` makes the row lookup `undefined`
and the `.elements` access throw; a missing `destinationIndex` sets a
non-index property, leaving the row unchanged. -/
def processItem (mat : List DMRow) (it : RouteItem) :
    Except String (List DMRow) :=
  match it.originIndex with
  | none => .error undefElementsMsg
  | some i =>
    match mat[i]? with
    | none => .error undefElementsMsg
    | some row =>
      (buildElement it).map (fun e =>
        match it.destinationIndex with
        | none => mat
        | some j => mat.set i ⟨setCellRow row.elements j e⟩)

/-- Matrix reassembly (lines 851–871): `origins.length` rows of
`destinations.length` null slots, then each flat result written at its
`(originIndex, destinationIndex)`. -/
def dmReshapeRows (origins destinations : List String) (data : List RouteItem) :
    Except String (List DMRow) :=
  data.foldlM processItem
    (List.replicate origins.length ⟨List.replicate destinations.length none⟩)

/-- Abstracted success text of `handleDistanceMatrix`. -/
def renderDMSuccess (origins destinations : List String) (rows : List DMRow) :
    String :=
  "origin_addresses:[" ++ String.intercalate "," origins ++
  "] destination_addresses:[" ++ String.intercalate "," destinations ++
  "] rows:" ++ toString (rows.map (fun r => r.elements.length))

/-- Response processing of `handleDistanceMatrix` (lines 840–884): HTTP
failure or a leading error object becomes an error envelope; otherwise the
matrix is reassembled and wrapped in a success envelope. -/
def handleDistanceMatrixResp (origins destinations : List String)
    (httpStatus : Nat) (statusText : String) (data : List RouteItem) :
    Except String ToolResult :=
  if httpStatus != 200 ||
     (match data.head? with | some it => it.error.isSome | none => false) then
    .ok ⟨[⟨"text", "Distance matrix request failed: " ++
      jsOrStr ((data.head?.bind RouteItem.error).bind id)
        (jsOrStr (some statusText) "Unknown error")⟩], true⟩
  else do
    let rows ← dmReshapeRows origins destinations data
    pure ⟨[⟨"text", renderDMSuccess origins destinations rows⟩], false⟩

/-! ### Directions response processing (`handleDirections`, lines 1006–1052) -/

/-- A step of a directions route (cast as `any`; `navigationInstruction`
models `navigationInstruction?.instructions` and `travelAdvisory` models
`travelAdvisory?.text?.text`). -/
structure DirStep where
  distanceMeters : Option Nat
  staticDuration : Option String
  navigationInstruction : Option String
  travelAdvisory : Option String
deriving DecidableEq

/-- One leg (only `steps` is read). -/
structure DirLeg where
  steps : Option (List DirStep)
deriving DecidableEq

/-- One route of a `computeRoutes` response. -/
structure DirRoute where
  description : Option String
  distanceMeters : Option Nat
  duration : Option String
  staticDuration : Option String
  legs : Option (List DirLeg)
deriving DecidableEq

/-- Reshaped step (lines 1035–1046). -/
structure StepOut where
  instructions : String
  distance : DistanceOut
  duration : DurationOut
  travel_mode : String
deriving DecidableEq

/-- Reshaped route (lines 1025–1047). -/
structure RouteOut where
  summary : String
  distance : DistanceOut
  duration : DurationOut
  steps : List StepOut
deriving DecidableEq

/-- Step reshaping:
`duration.text: step.staticDuration ? step.staticDuration.replace('s','') : 'Unknown duration'`,
`duration.value: step.staticDuration ? parseInt(...) : 0`. -/
def stepOut (tm : String) (s : DirStep) : StepOut :=
  { instructions := jsOrStr s.navigationInstruction (jsOrStr s.travelAdvisory "")
    distance :=
      { text :=
          if jsTruthyNat s.distanceMeters then formatKm (s.distanceMeters.getD 0)
          else "Unknown distance"
        value := s.distanceMeters }
    duration :=
      { text :=
          if jsTruthyStr s.staticDuration then
            jsReplaceFirst "s" "" (s.staticDuration.getD "")
          else "Unknown duration"
        value :=
          if jsTruthyStr s.staticDuration then
            parseIntJS (jsReplaceFirst "s" "" (s.staticDuration.getD ""))
          else some 0 }
    travel_mode := tm }

/-- Route reshaping:
`duration.text: route.duration ? route.duration.replace('s','') : 'Unknown duration'`,
`duration.value: route.staticDuration ? parseInt(route.staticDuration.replace('s','')) : 0`,
`steps: route.legs?.[0]?.steps?.map(...) || []`. -/
def routeOut (tm : String) (r : DirRoute) : RouteOut :=
  { summary := jsOrStr r.description "Route"
    distance :=
      { text :=
          if jsTruthyNat r.distanceMeters then formatKm (r.distanceMeters.getD 0)
          else "Unknown distance"
        value := r.distanceMeters }
    duration :=
      { text :=
          if jsTruthyStr r.duration then jsReplaceFirst "s" "" (r.duration.getD "")
          else "Unknown duration"
        value :=
          if jsTruthyStr r.staticDuration then
            parseIntJS (jsReplaceFirst "s" "" (r.staticDuration.getD ""))
          else some 0 }
    steps := ((((r.legs.bind List.head?).bind DirLeg.steps).map
      (List.map (stepOut tm))).getD []) }

/-! ### Place search (`handlePlaceSearch`, lines 539–573)

The response is cast to `{ places?: Array<any> }`, so every field of a place
is possibly absent.  `JSON.stringify` omits keys whose value is
`undefined`; the serialised key set is computed by `searchPlacePresentKeys`. -/

/-- Upstream `displayName` object (its `text` member). -/
structure DName where
  text : String
deriving DecidableEq

/-- New-API latitude/longitude pair. -/
structure LatLng where
  latitude : Rat
  longitude : Rat
deriving DecidableEq

/-- One `any`-typed place of a text-search response. -/
structure SPlace where
  displayName : Option DName
  formattedAddress : Option String
  location : Option LatLng
  id : Option String
  rating : Option Rat
  types : Option (List String)
deriving DecidableEq

/-- The nested `location: {lat, lng}` object of a reshaped place
(`place.location?.latitude` / `place.location?.longitude`). -/
structure SLocOut where
  lat : Option Rat
  lng : Option Rat
deriving DecidableEq

/-- One reshaped place of `handlePlaceSearch` (lines 558–568); `none`
models `undefined` (the key is dropped by `JSON.stringify`). -/
structure SPlaceOut where
  name : Option String
  formatted_address : Option String
  location : SLocOut
  place_id : Option String
  rating : Option Rat
  types : Option (List String)
deriving DecidableEq

/-- The per-place reshape of `handlePlaceSearch`. -/
def reshapeSearchPlace (p : SPlace) : SPlaceOut :=
  { name := p.displayName.map DName.text
    formatted_address := p.formattedAddress
    location := ⟨p.location.map LatLng.latitude, p.location.map LatLng.longitude⟩
    place_id := p.id
    rating := p.rating
    types := p.types }

/-- The keys (in source order) that survive `JSON.stringify` for one
reshaped place: keys whose value is `undefined` are omitted; the nested
`location` object itself is always present. -/
def searchPlacePresentKeys (p : SPlace) : List String :=
  let o := reshapeSearchPlace p
  (if o.name.isSome then ["name"] else []) ++
  (if o.formatted_address.isSome then ["formatted_address"] else []) ++
  ["location"] ++
  (if o.place_id.isSome then ["place_id"] else []) ++
  (if o.rating.isSome then ["rating"] else []) ++
  (if o.types.isSome then ["types"] else [])

/-- The keys the documented output schema of `search_places` lists for each
place (spec section 4.2: `{name, formatted_address, location, place_id,
rating, types}`). -/
def documentedSearchKeys : List String :=
  ["name", "formatted_address", "location", "place_id", "rating", "types"]

/-! ### Place details (`handlePlaceDetails`, lines 623–720)

The upstream body is `any`-typed; all fields are modelled as optional.
Output fields built with a `|| default` fallback are total; fields copied
without a fallback stay optional (`none` = `undefined`, key omitted);
fields built with a ternary `x ? ... : null` are `Option` with `none` =
`null` (key present). -/

/-- New-API address component. -/
structure AddrComp where
  longText : String
  shortText : String
  types : List String
deriving DecidableEq

/-- New-API viewport (`low`/`high` corners). -/
structure Viewport where
  low : LatLng
  high : LatLng
deriving DecidableEq

/-- New-API plus code. -/
structure PlusCode where
  globalCode : String
  compoundCode : String
deriving DecidableEq

/-- An opening-hours point (`{day, hour, minute}`). -/
structure HourPoint where
  day : Nat
  hour : Nat
  minute : Nat
deriving DecidableEq

/-- An opening-hours period; `popen`/`pclose` model the source's
`open`/`close` fields (renamed: `open` is a Lean keyword). -/
structure Period where
  popen : Option HourPoint
  pclose : Option HourPoint
deriving DecidableEq

/-- New-API opening hours. -/
structure OpeningHours where
  openNow : Bool
  weekdayDescriptions : List String
  periods : Option (List Period)
deriving DecidableEq

/-- New-API review author attribution. -/
structure AuthorAttribution where
  displayName : String
  uri : Option String
  photoUri : Option String
deriving DecidableEq

/-- New-API review. -/
structure Review where
  authorAttribution : Option AuthorAttribution
  rating : Option Rat
  relativePublishTimeDescription : Option String
  text : Option DName
  publishTime : Option String
  googleMapsUri : Option String
deriving DecidableEq

/-- New-API photo. -/
structure Photo where
  name : String
  widthPx : Option Nat
  heightPx : Option Nat
  authorAttributions : Option (List AuthorAttribution)
deriving DecidableEq

/-- New-API payment options. -/
structure PaymentOptions where
  acceptsCreditCards : Option Bool
  acceptsDebitCards : Option Bool
  acceptsCashOnly : Option Bool
  acceptsNfc : Option Bool
deriving DecidableEq

/-- New-API accessibility options. -/
structure AccessOptions where
  wheelchairAccessibleEntrance : Option Bool
  wheelchairAccessibleParking : Option Bool
  wheelchairAccessibleRestroom : Option Bool
  wheelchairAccessibleSeating : Option Bool
deriving DecidableEq

/-- The (`any`-typed) Place Details response body, restricted to the fields
the reshape reads. -/
structure PlaceData where
  displayName : Option DName
  id : Option String
  formattedAddress : Option String
  nationalPhoneNumber : Option String
  internationalPhoneNumber : Option String
  websiteUri : Option String
  rating : Option Rat
  userRatingCount : Option Nat
  googleMapsUri : Option String
  addressComponents : Option (List AddrComp)
  location : Option LatLng
  viewport : Option Viewport
  types : Option (List String)
  primaryType : Option String
  editorialSummary : Option DName
  iconMaskBaseUri : Option String
  iconBackgroundColor : Option String
  plusCode : Option PlusCode
  businessStatus : Option String
  priceLevel : Option String
  regularOpeningHours : Option OpeningHours
  currentOpeningHours : Option OpeningHours
  reviews : Option (List Review)
  photos : Option (List Photo)
  dineIn : Option Bool
  takeout : Option Bool
  delivery : Option Bool
  reservable : Option Bool
  servesBreakfast : Option Bool
  servesLunch : Option Bool
  servesDinner : Option Bool
  servesBrunch : Option Bool
  paymentOptions : Option PaymentOptions
  accessibilityOptions : Option AccessOptions
deriving DecidableEq

/-- Output `{lat, lng}`. -/
structure LatLngOut where
  lat : Rat
  lng : Rat
deriving DecidableEq

/-- Output viewport: `northeast` from `high`, `southwest` from `low`. -/
structure ViewportOut where
  northeast : LatLngOut
  southwest : LatLngOut
deriving DecidableEq

/-- Output `geometry`: both members are `null` (not omitted) when absent. -/
structure GeometryOut where
  location : Option LatLngOut
  viewport : Option ViewportOut
deriving DecidableEq

/-- Output plus code. -/
structure PlusCodeOut where
  global_code : String
  compound_code : String
deriving DecidableEq

/-- Output opening-hours point: `day` may be `undefined`
(`period.open?.day`); `time` is the concatenated zero-padded hour/minute. -/
structure PeriodPointOut where
  day : Option Nat
  time : String
deriving DecidableEq

/-- Output period: `close` is `null` when absent. -/
structure PeriodOut where
  popen : PeriodPointOut
  pclose : Option PeriodPointOut
deriving DecidableEq

/-- Output `opening_hours`. -/
structure OpeningHoursOut where
  open_now : Bool
  weekday_text : List String
  periods : List PeriodOut
deriving DecidableEq

/-- Output `current_opening_hours`. -/
structure CurrentHoursOut where
  open_now : Bool
  weekday_text : List String
deriving DecidableEq

/-- Output review. -/
structure ReviewOut where
  author_name : String
  author_url : String
  profile_photo_url : String
  rating : Rat
  relative_time_description : String
  text : String
  time : String
  google_maps_uri : String
deriving DecidableEq

/-- Output photo; `height`/`width` may be `undefined` (copied without a
fallback from the `any`-typed body). -/
structure PhotoOut where
  photo_reference : String
  height : Option Nat
  width : Option Nat
  html_attributions : List String
deriving DecidableEq

/-- Output payment options;`none` on the outer option models the literal
`{}` produced when `paymentOptions` is absent. -/
structure PaymentOptionsOut where
  accepts_credit_cards : Bool
  accepts_debit_cards : Bool
  accepts_cash_only : Bool
  accepts_nfc : Bool
deriving DecidableEq

/-- Output accessibility options; `none` models the literal `{}`. -/
structure AccessOptionsOut where
  wheelchair_accessible_entrance : Bool
  wheelchair_accessible_parking : Bool
  wheelchair_accessible_restroom : Bool
  wheelchair_accessible_seating : Bool
deriving DecidableEq

/-- The `formattedData` object of `handlePlaceDetails` (lines 626–720). -/
structure PlaceDetailsOut where
  name : String
  place_id : Option String
  formatted_address : String
  formatted_phone_number : String
  international_phone_number : String
  website : String
  rating : Rat
  user_ratings_total : Nat
  url : String
  address_components : List AddrComp
  geometry : GeometryOut
  types : List String
  primary_type : String
  editorial_summary : String
  icon : String
  icon_background_color : String
  plus_code : Option PlusCodeOut
  business_status : String
  price_level : PriceLevelValue
  opening_hours : Option OpeningHoursOut
  current_opening_hours : Option CurrentHoursOut
  reviews : List ReviewOut
  photos : List PhotoOut
  dine_in : Bool
  takeout : Bool
  delivery : Bool
  reservable : Bool
  serves_breakfast : Bool
  serves_lunch : Bool
  serves_dinner : Bool
  serves_brunch : Bool
  payment_options : Option PaymentOptionsOut
  accessibility_options : Option AccessOptionsOut
deriving DecidableEq

/-- Period reshape (lines 667–676): `open.time` concatenates
`String(period.open?.hour).padStart(2,'0')` and the same for minutes
(yielding `"undefined"` parts when `open` is absent). -/
def periodOut (pr : Period) : PeriodOut :=
  { popen :=
      { day := pr.popen.map HourPoint.day
        time := padStart2 (jsStringOfOptNat (pr.popen.map HourPoint.hour)) ++
                padStart2 (jsStringOfOptNat (pr.popen.map HourPoint.minute)) }
    pclose := pr.pclose.map (fun c =>
      { day := some c.day
        time := padStart2 (toString c.hour) ++ padStart2 (toString c.minute) }) }

/-- Review reshape (lines 682–691). -/
def reviewOut (r : Review) : ReviewOut :=
  { author_name := jsOrStr (r.authorAttribution.map AuthorAttribution.displayName) ""
    author_url := jsOrStr (r.authorAttribution.bind AuthorAttribution.uri) ""
    profile_photo_url := jsOrStr (r.authorAttribution.bind AuthorAttribution.photoUri) ""
    rating := jsOrRat r.rating 0
    relative_time_description := jsOrStr r.relativePublishTimeDescription ""
    text := jsOrStr (r.text.map DName.text) ""
    time := jsOrStr r.publishTime ""
    google_maps_uri := jsOrStr r.googleMapsUri "" }

/-- One `<a href="...">...</a>` attribution string (template literals
render an absent `uri` as the text `undefined`). -/
def htmlAttribution (a : AuthorAttribution) : String :=
  "<a href=\"" ++ (match a.uri with | some u => u | none => "undefined") ++
    "\">" ++ a.displayName ++ "</a>"

/-- Photo reshape (lines 692–698). -/
def photoOut (ph : Photo) : PhotoOut :=
  { photo_reference := photoReference ph.name
    height := ph.heightPx
    width := ph.widthPx
    html_attributions :=
      (ph.authorAttributions.map (List.map htmlAttribution)).getD [] }

/-- The full `formattedData` reshape of `handlePlaceDetails`. -/
def placeDetailsReshape (p : PlaceData) : PlaceDetailsOut :=
  { name := jsOrStr (p.displayName.map DName.text) ""
    place_id := p.id
    formatted_address := jsOrStr p.formattedAddress ""
    formatted_phone_number := jsOrStr p.nationalPhoneNumber ""
    international_phone_number := jsOrStr p.internationalPhoneNumber ""
    website := jsOrStr p.websiteUri ""
    rating := jsOrRat p.rating 0
    user_ratings_total := jsOrNat p.userRatingCount 0
    url := jsOrStr p.googleMapsUri ""
    address_components := p.addressComponents.getD []
    geometry :=
      { location := p.location.map (fun l => ⟨l.latitude, l.longitude⟩)
        viewport := p.viewport.map (fun v =>
          ⟨⟨v.high.latitude, v.high.longitude⟩, ⟨v.low.latitude, v.low.longitude⟩⟩) }
    types := p.types.getD []
    primary_type := jsOrStr p.primaryType ""
    editorial_summary := jsOrStr (p.editorialSummary.map DName.text) ""
    icon := jsOrStr p.iconMaskBaseUri ""
    icon_background_color := jsOrStr p.iconBackgroundColor ""
    plus_code := p.plusCode.map (fun pc => ⟨pc.globalCode, pc.compoundCode⟩)
    business_status := jsOrStr p.businessStatus ""
    price_level :=
      if jsTruthyStr p.priceLevel then getPriceLevelValue (p.priceLevel.getD "")
      else .num 0
    opening_hours := p.regularOpeningHours.map (fun oh =>
      { open_now := oh.openNow
        weekday_text := oh.weekdayDescriptions
        periods := ((oh.periods.map (List.map periodOut)).getD []) })
    current_opening_hours := p.currentOpeningHours.map (fun oh =>
      ⟨oh.openNow, oh.weekdayDescriptions⟩)
    reviews := ((p.reviews.map (List.map reviewOut)).getD [])
    photos := ((p.photos.map (List.map photoOut)).getD [])
    dine_in := jsOrBool p.dineIn false
    takeout := jsOrBool p.takeout false
    delivery := jsOrBool p.delivery false
    reservable := jsOrBool p.reservable false
    serves_breakfast := jsOrBool p.servesBreakfast false
    serves_lunch := jsOrBool p.servesLunch false
    serves_dinner := jsOrBool p.servesDinner false
    serves_brunch := jsOrBool p.servesBrunch false
    payment_options := p.paymentOptions.map (fun po =>
      ⟨jsOrBool po.acceptsCreditCards false, jsOrBool po.acceptsDebitCards false,
       jsOrBool po.acceptsCashOnly false, jsOrBool po.acceptsNfc false⟩)
    accessibility_options := p.accessibilityOptions.map (fun ao =>
      ⟨jsOrBool ao.wheelchairAccessibleEntrance false,
       jsOrBool ao.wheelchairAccessibleParking false,
       jsOrBool ao.wheelchairAccessibleRestroom false,
       jsOrBool ao.wheelchairAccessibleSeating false⟩) }

/-! ### Tool registry and dispatcher (lines 268–426 and 1072–1145) -/

/-- A tool descriptor (name and description; the JSON input schema is static
data not needed by any claim). -/
structure ToolDescr where
  name : String
  description : String
deriving DecidableEq

/-- Source `GEOCODE_TOOL`. -/
def GEOCODE_TOOL : ToolDescr :=
  ⟨"maps_geocode", "Convert an address into geographic coordinates"⟩

/-- Source `REVERSE_GEOCODE_TOOL`. -/
def REVERSE_GEOCODE_TOOL : ToolDescr :=
  ⟨"maps_reverse_geocode", "Convert coordinates into an address"⟩

/-- Source `SEARCH_PLACES_TOOL`. -/
def SEARCH_PLACES_TOOL : ToolDescr :=
  ⟨"maps_search_places", "Search for places using Google Places API"⟩

/-- Source `PLACE_DETAILS_TOOL`. -/
def PLACE_DETAILS_TOOL : ToolDescr :=
  ⟨"maps_place_details", "Get detailed information about a specific place"⟩

/-- Source `DISTANCE_MATRIX_TOOL`. -/
def DISTANCE_MATRIX_TOOL : ToolDescr :=
  ⟨"maps_distance_matrix",
   "Calculate travel distance and time for multiple origins and destinations"⟩

/-- Source `ELEVATION_TOOL`. -/
def ELEVATION_TOOL : ToolDescr :=
  ⟨"maps_elevation", "Get elevation data for locations on the earth"⟩

/-- Source `DIRECTIONS_TOOL`. -/
def DIRECTIONS_TOOL : ToolDescr :=
  ⟨"maps_directions", "Get directions between two points"⟩

/-- Source `MAPS_TOOLS` (lines 418–426). -/
def MAPS_TOOLS : List ToolDescr :=
  [GEOCODE_TOOL, REVERSE_GEOCODE_TOOL, SEARCH_PLACES_TOOL, PLACE_DETAILS_TOOL,
   DISTANCE_MATRIX_TOOL, ELEVATION_TOOL, DIRECTIONS_TOOL]

/-- The seven registered tool names. -/
def registeredToolNames : List String := MAPS_TOOLS.map ToolDescr.name

/-- The untyped argument bag of a tool call; the `as`-casts in the dispatch
switch perform no runtime validation, so every field may be absent. -/
structure ArgBag where
  address : Option String
  latitude : Option Rat
  longitude : Option Rat
  query : Option String
  location : Option LatLng
  radius : Option Nat
  place_id : Option String
  origins : Option (List String)
  destinations : Option (List String)
  mode : Option String
  origin : Option String
  destination : Option String
  locations : Option (List LatLng)

/-- The empty argument bag. -/
def emptyArgs : ArgBag :=
  ⟨none, none, none, none, none, none, none, none, none, none, none, none, none⟩

/-- A tool-call request: name plus argument bag. -/
structure CallRequest where
  name : String
  arguments : ArgBag

/-- The seven transcoders as the dispatcher sees them: each takes its
extracted arguments and either returns a `ToolResult` or throws.  They are
kept abstract here so dispatcher-level claims hold for every transcoder
behaviour. -/
structure Handlers where
  geocode : Option String → Except String ToolResult
  reverseGeocode : Option Rat → Option Rat → Except String ToolResult
  searchPlaces : Option String → Option LatLng → Option Nat → Except String ToolResult
  placeDetails : Option String → Except String ToolResult
  distanceMatrix : Option (List String) → Option (List String) → Option String →
    Except String ToolResult
  elevation : Option (List LatLng) → Except String ToolResult
  directions : Option String → Option String → Option String → Except String ToolResult

/-- The unknown-tool error result (lines 1127–1134). -/
def unknownToolResult (name : String) : ToolResult :=
  ⟨[⟨"text", "Unknown tool: " ++ name⟩], true⟩

/-- The dispatch switch (lines 1072–1135), before the surrounding `catch`. -/
def dispatchCore (h : Handlers) (req : CallRequest) : Except String ToolResult :=
  match req.name with
  | "maps_geocode" => h.geocode req.arguments.address
  | "maps_reverse_geocode" =>
    h.reverseGeocode req.arguments.latitude req.arguments.longitude
  | "maps_search_places" =>
    h.searchPlaces req.arguments.query req.arguments.location req.arguments.radius
  | "maps_place_details" => h.placeDetails req.arguments.place_id
  | "maps_distance_matrix" =>
    h.distanceMatrix req.arguments.origins req.arguments.destinations
      req.arguments.mode
  | "maps_elevation" => h.elevation req.arguments.locations
  | "maps_directions" =>
    h.directions req.arguments.origin req.arguments.destination req.arguments.mode
  | _ => .ok (unknownToolResult req.name)

/-- The complete `CallToolRequestSchema` handler: the switch wrapped in the
`try`/`catch` that converts any thrown exception into the error envelope. -/
def dispatch (h : Handlers) (req : CallRequest) : ToolResult :=
  catchEnvelope (dispatchCore h req)

/-! ### Auxiliary notions used by the statements about matrix reassembly -/

/-- Read the matrix cell `(i, j)`: `some v` when row `i` exists and slot `j`
exists in it (`v` is the slot's content), `none` otherwise. -/
def cellGet (mat : List DMRow) (i j : Nat) : Option (Option DMElement) :=
  mat[i]?.bind (fun r => r.elements[j]?)

/-- Does a flat result carry the indices `(i, j)`? -/
def matchesCell (i j : Nat) (it : RouteItem) : Bool :=
  it.originIndex == some i && it.destinationIndex == some j

/-- A flat result that is well-indexed for an `N × M` matrix and does not
trip the `duration`-absent / `distanceMeters`-truthy throw. -/
def goodItem (N M : Nat) (it : RouteItem) : Prop :=
  ∃ i j, it.originIndex = some i ∧ it.destinationIndex = some j ∧ i < N ∧ j < M ∧
    ¬(it.duration = none ∧ jsTruthyNat it.distanceMeters = true)

/-- An `N × M` matrix shape. -/
def dimsOK (N M : Nat) (mat : List DMRow) : Prop :=
  mat.length = N ∧ ∀ r ∈ mat, r.elements.length = M

/-- A handler record in which every transcoder throws; used to instantiate
dispatcher-level statements at a concrete input. -/
def throwingHandlers : Handlers :=
  ⟨fun _ => .error "network down", fun _ _ => .error "network down",
   fun _ _ _ => .error "network down", fun _ => .error "network down",
   fun _ _ _ => .error "network down", fun _ => .error "network down",
   fun _ _ _ => .error "network down"⟩

end GMaps

namespace GMaps

open RE

/-! ## Supporting lemmas -/

/-- A list is a Boolean prefix of itself followed by anything. -/
theorem isPrefixOf_append_self (l r : List Char) : l.isPrefixOf (l ++ r) = true := by
  induction l with
  | nil => simp [List.isPrefixOf]
  | cons c t ih => simp [List.isPrefixOf, ih]

/-- A pattern starting with a character different from the head of the
scanned list is not a prefix of it. -/
theorem isPrefixOf_ne_head (c p : Char) (pt s : List Char) (h : p ≠ c) :
    (p :: pt).isPrefixOf (c :: s) = false := by
  simp [List.isPrefixOf, h]

/-- Splitting at the first occurrence of a nonempty pattern that starts the
list yields the empty part and the remainder. -/
theorem splitOnFirst_self (pat rest : List Char) (h : pat ≠ []) :
    splitOnFirst pat (pat ++ rest) = some ([], rest) := by
  cases pat with
  | nil => contradiction
  | cons c t =>
    show splitOnFirst (c :: t) (c :: (t ++ rest)) = _
    unfold splitOnFirst
    rw [show c :: (t ++ rest) = (c :: t) ++ rest from rfl,
      isPrefixOf_append_self]
    simp [List.drop_left]

/-- Splitting at the first occurrence of `"/photos/"` after a slash-free
piece finds exactly the separator. -/
theorem splitOnFirst_no_slash (pid ph : List Char) (h : '/' ∉ pid) :
    splitOnFirst "/photos/".data (pid ++ "/photos/".data ++ ph) = some (pid, ph) := by
  induction pid with
  | nil => simpa using splitOnFirst_self "/photos/".data ph (by decide)
  | cons c t ih =>
    have hc : ('/' : Char) ≠ c := fun e => h (e ▸ List.mem_cons_self c t)
    have ht : '/' ∉ t := fun m => h (List.mem_cons_of_mem c m)
    show splitOnFirst "/photos/".data (c :: (t ++ "/photos/".data ++ ph)) = _
    unfold splitOnFirst
    rw [show "/photos/".data = '/' :: "photos/".data from rfl]
    rw [isPrefixOf_ne_head c '/' "photos/".data (t ++ "/photos/".data ++ ph) hc]
    rw [show ('/' :: "photos/".data : List Char) = "/photos/".data from rfl]
    rw [ih ht]
    simp

/-- Dropping while a predicate holds on every element drops everything. -/
theorem dropWhile_nil_of_all (p : Char → Bool) (l : List Char)
    (h : ∀ c ∈ l, p c = true) : l.dropWhile p = [] := by
  induction l with
  | nil => rfl
  | cons c t ih =>
    simp [List.dropWhile, h c (List.mem_cons_self c t),
      ih (fun x hx => h x (List.mem_cons_of_mem c hx))]

/-- Unfolding of `matchesCell` into propositional equalities. -/
theorem matchesCell_iff (i j : Nat) (it : RouteItem) :
    matchesCell i j it = true ↔
      (it.originIndex = some i ∧ it.destinationIndex = some j) := by
  simp [matchesCell]

/-- Element construction only throws when `duration` is absent while
`distanceMeters` is truthy. -/
theorem buildElement_ok (it : RouteItem)
    (h : ¬(it.duration = none ∧ jsTruthyNat it.distanceMeters = true)) :
    ∃ e, buildElement it = .ok e := by
  cases hd : it.duration with
  | none =>
    have ht : jsTruthyNat it.distanceMeters = false := by
      cases ht : jsTruthyNat it.distanceMeters
      · rfl
      · exact absurd ⟨hd, ht⟩ h
    simp only [buildElement, hd, ht, Bool.false_eq_true, if_false, Bind.bind,
      Except.bind, pure, Except.pure]
    exact ⟨_, rfl⟩
  | some s =>
    cases ht : jsTruthyNat it.distanceMeters <;>
      [skip; skip] <;>
      simp only [buildElement, hd, ht, Bool.false_eq_true, if_false, if_true,
        Bind.bind, Except.bind, pure, Except.pure] <;>
      exact ⟨_, rfl⟩

/-- Processing one in-range, non-throwing flat result writes its element
into the matrix. -/
theorem processItem_eq (mat : List DMRow) (it : RouteItem) (i j : Nat)
    (row : DMRow) (e : DMElement)
    (hi : it.originIndex = some i) (hj : it.destinationIndex = some j)
    (hrow : mat[i]? = some row) (hbe : buildElement it = .ok e) :
    processItem mat it = .ok (mat.set i ⟨setCellRow row.elements j e⟩) := by
  simp only [processItem, hi, hj, hrow, hbe, Except.map]

/-- An index with a present optional lookup is in range. -/
theorem lt_of_getElem?_eq_some {α : Type} {l : List α} {i : Nat} {a : α}
    (h : l[i]? = some a) : i < l.length := by
  by_contra hc
  push_neg at hc
  rw [List.getElem?_eq_none hc] at h
  cases h

/-- Writing one in-range slot preserves the matrix shape. -/
theorem dimsOK_set (N M : Nat) (mat : List DMRow) (i j : Nat) (row : DMRow)
    (e : DMElement) (h : dimsOK N M mat) (hrow : mat[i]? = some row)
    (hj : j < M) :
    dimsOK N M (mat.set i ⟨setCellRow row.elements j e⟩) := by
  have hrm : row ∈ mat := List.getElem?_mem hrow
  have hrl : row.elements.length = M := h.2 row hrm
  constructor
  · rw [List.length_set]; exact h.1
  · intro r hr
    rcases List.mem_or_eq_of_mem_set hr with hmem | heq
    · exact h.2 r hmem
    · subst heq
      show (setCellRow row.elements j e).length = M
      unfold setCellRow
      rw [if_pos (hrl ▸ hj), List.length_set]
      exact hrl

/-- Reading back the slot just written yields the written element. -/
theorem cellGet_set_self (mat : List DMRow) (i j : Nat) (row : DMRow)
    (e : DMElement) (hrow : mat[i]? = some row)
    (hj : j < row.elements.length) :
    cellGet (mat.set i ⟨setCellRow row.elements j e⟩) i j = some (some e) := by
  have hi : i < mat.length := lt_of_getElem?_eq_some hrow
  rw [cellGet, List.getElem?_set_eq_of_lt _ hi]
  show (setCellRow row.elements j e)[j]? = some (some e)
  unfold setCellRow
  rw [if_pos hj]
  exact List.getElem?_set_eq_of_lt _ hj

/-- Writing one slot leaves every other slot unchanged. -/
theorem cellGet_set_other (mat : List DMRow) (i j i' j' : Nat) (row : DMRow)
    (e : DMElement) (hrow : mat[i']? = some row)
    (hne : ¬(i' = i ∧ j' = j)) (hj' : j' < row.elements.length) :
    cellGet (mat.set i' ⟨setCellRow row.elements j' e⟩) i j = cellGet mat i j := by
  by_cases hi : i' = i
  · subst hi
    have hj : j' ≠ j := fun hx => hne ⟨rfl, hx⟩
    have hilt : i' < mat.length := lt_of_getElem?_eq_some hrow
    rw [cellGet, cellGet, List.getElem?_set_eq_of_lt _ hilt, hrow]
    show (setCellRow row.elements j' e)[j]? = row.elements[j]?
    unfold setCellRow
    rw [if_pos hj']
    exact List.getElem?_set_ne hj
  · rw [cellGet, cellGet, List.getElem?_set_ne hi]

/-- Main fold invariant of the matrix reassembly: over well-indexed,
non-throwing flat results, the fold succeeds, preserves the matrix shape,
and each cell holds the element of the last result written to it (or its
initial content when no result targets it). -/
theorem dmFold_cell (N M : Nat) :
    ∀ (data : List RouteItem) (mat : List DMRow), dimsOK N M mat →
    (∀ it ∈ data, goodItem N M it) →
    ∃ mat', data.foldlM processItem mat = .ok mat' ∧ dimsOK N M mat' ∧
      ∀ i j, i < N → j < M →
        (match (data.filter (matchesCell i j)).getLast? with
         | some it => ∃ e, buildElement it = .ok e ∧ cellGet mat' i j = some (some e)
         | none => cellGet mat' i j = cellGet mat i j) := by
  intro data
  induction data with
  | nil =>
    intro mat hdims _
    exact ⟨mat, rfl, hdims, fun i j _ _ => by simp⟩
  | cons it rest ih =>
    intro mat hdims hgood
    obtain ⟨i0, j0, hi0, hj0, hiN, hjM, hok⟩ := hgood it (List.mem_cons_self it rest)
    obtain ⟨e0, hbe0⟩ := buildElement_ok it hok
    have hi0lt : i0 < mat.length := hdims.1 ▸ hiN
    obtain ⟨row, hrow⟩ : ∃ r, mat[i0]? = some r :=
      ⟨mat[i0], List.getElem?_eq_getElem hi0lt⟩
    have hrowM : row.elements.length = M := hdims.2 row (List.getElem?_mem hrow)
    have hproc : processItem mat it = .ok (mat.set i0 ⟨setCellRow row.elements j0 e0⟩) :=
      processItem_eq mat it i0 j0 row e0 hi0 hj0 hrow hbe0
    have hdims₁ : dimsOK N M (mat.set i0 ⟨setCellRow row.elements j0 e0⟩) :=
      dimsOK_set N M mat i0 j0 row e0 hdims hrow hjM
    obtain ⟨mat', hfold, hdims', hcell⟩ :=
      ih (mat.set i0 ⟨setCellRow row.elements j0 e0⟩) hdims₁
        (fun x hx => hgood x (List.mem_cons_of_mem it hx))
    refine ⟨mat', ?_, hdims', ?_⟩
    · rw [List.foldlM_cons, hproc]
      simpa [Bind.bind, Except.bind] using hfold
    · intro i j hiN' hjM'
      specialize hcell i j hiN' hjM'
      by_cases hmatch : matchesCell i j it = true
      · obtain ⟨hio, hjo⟩ := (matchesCell_iff i j it).mp hmatch
        have hii : i0 = i := by
          rw [hi0] at hio; exact Option.some_inj.mp hio
        have hjj : j0 = j := by
          rw [hj0] at hjo; exact Option.some_inj.mp hjo
        subst hii; subst hjj
        rw [List.filter_cons_of_pos hmatch]
        cases hfr : rest.filter (matchesCell i0 j0) with
        | nil =>
          rw [hfr] at hcell
          simp only [List.getLast?_singleton]
          refine ⟨e0, hbe0, ?_⟩
          rw [hcell]
          exact cellGet_set_self mat i0 j0 row e0 hrow (hrowM ▸ hjM)
        | cons y ys =>
          rw [hfr] at hcell
          rw [List.getLast?_cons_cons]
          obtain ⟨z, hz⟩ : ∃ z, (y :: ys).getLast? = some z := by
            cases hlz : (y :: ys).getLast? with
            | none => exact absurd hlz (by simp)
            | some z => exact ⟨z, rfl⟩
          rw [hz] at hcell ⊢
          exact hcell
      · have hfil : (it :: rest).filter (matchesCell i j) =
            rest.filter (matchesCell i j) :=
          List.filter_cons_of_neg (by simpa using hmatch)
        rw [hfil]
        cases hfr : (rest.filter (matchesCell i j)).getLast? with
        | some y =>
          rw [hfr] at hcell
          exact hcell
        | none =>
          rw [hfr] at hcell
          rw [hcell]
          have hne : ¬(i0 = i ∧ j0 = j) := by
            rintro ⟨e1, e2⟩
            exact hmatch ((matchesCell_iff i j it).mpr ⟨e1 ▸ hi0, e2 ▸ hj0⟩)
          exact cellGet_set_other mat i j i0 j0 row e0 hrow hne (hrowM ▸ hjM)

/-- Shape of the freshly initialised matrix. -/
theorem dims_init (N M : Nat) :
    dimsOK N M (List.replicate N ⟨List.replicate M none⟩) := by
  constructor
  · exact List.length_replicate ..
  · intro r hr
    rw [List.eq_of_mem_replicate hr]
    exact List.length_replicate ..

/-! ## Claims -/

/-- C1: every exception a transcoder raises during a tool call is caught at
the dispatcher boundary and converted into a `ToolResult` with
`isError:true` whose text carries the exception's message; the dispatcher
itself is a total function into `ToolResult`, so no call-time failure
propagates past it. -/
theorem C1_dispatcher_error_envelope (h : Handlers) (req : CallRequest)
    (msg : String) (hthrow : dispatchCore h req = .error msg) :
    dispatch h req = ⟨[⟨"text", "Error: " ++ msg⟩], true⟩ := by
  simp [dispatch, hthrow, catchEnvelope]

/-- Witness for C1 at a concrete request whose transcoder throws. -/
theorem C1_dispatcher_error_envelope_witness :
    dispatch throwingHandlers ⟨"maps_geocode", emptyArgs⟩ =
      ⟨[⟨"text", "Error: network down"⟩], true⟩ :=
  C1_dispatcher_error_envelope throwingHandlers ⟨"maps_geocode", emptyArgs⟩
    "network down" rfl

/-- C2 (counterexample): the spec's classification (`specIsCoord`, the regex
`^-?\d{1,2}(\.\d+)?,\s*-?\d{1,3}(\.\d+)?$` plus the numeric ranges) disagrees
with the code's regex in both directions: `"+40.7,-74.0"` is treated as a
coordinate pair by the code but not by the spec's rule (leading `+`), and
`"05,05"` is treated as an address by the code but is a coordinate pair
under the spec's rule (leading zero). -/
theorem C2_classification_counterexample :
    (reMatch coordRegexDM "+40.7,-74.0".data = true ∧
      specIsCoord "+40.7,-74.0" = false) ∧
    (reMatch coordRegexDM "05,05".data = false ∧ specIsCoord "05,05" = true) ∧
    (dmToWaypoint "+40.7,-74.0").isCoordWp = true ∧
    (dmToWaypoint "05,05").isCoordWp = false := by
  refine ⟨⟨by decide, by decide⟩, ⟨by decide, by decide⟩, by decide, by decide⟩

/-- C2 (amended): in distance_matrix and directions a string is treated as a
coordinate pair exactly when it matches the code's regex
`^[-+]?([1-8]?\d(\.\d+)?|90(\.0+)?),\s*[-+]?(180(\.0+)?|((1[0-7]\d)|([1-9]?\d))(\.\d+)?)$`,
and the two handlers classify identically. -/
theorem C2_classification_amended : ∀ s : String,
    ((dmToWaypoint s).isCoordWp = reMatch coordRegexDM s.data) ∧
    dirToWaypoint s = dmToWaypoint s := by
  intro s
  constructor
  · unfold dmToWaypoint
    by_cases h : reMatch coordRegexDM s.data = true
    · simp [h, WaypointInput.isCoordWp]
    · simp only [Bool.not_eq_true] at h
      simp [h, WaypointInput.isCoordWp]
  · rfl

/-- C3 (counterexample): in a distance_matrix element with an absent
upstream `distanceMeters`, a present duration `"123s"` produces the numeric
value `0`, not `123`; and an absent duration produces the text `"Unknown"`,
not `"Unknown duration"`. -/
theorem C3_duration_counterexample :
    buildElement ⟨some 0, some 0, some "OK", none, some "123s", none⟩ =
      .ok ⟨"OK", ⟨"123", some 0⟩, ⟨"Unknown", none⟩⟩ ∧
    (some (0 : Int) ≠ some 123) ∧
    buildElement ⟨some 0, some 0, some "OK", none, none, none⟩ =
      .ok ⟨"OK", ⟨"Unknown", some 0⟩, ⟨"Unknown", none⟩⟩ ∧
    ("Unknown" : String) ≠ "Unknown duration" := by
  refine ⟨rfl, by decide, rfl, by decide⟩

/-- C3 (amended): in distance_matrix elements, a present duration `"123s"`
yields the integer `123` only when `distanceMeters` is present and nonzero
(otherwise the value is `0`); an absent duration yields the text
`"Unknown"` with value `0` when `distanceMeters` is absent or zero, and
throws (failing the whole call) when `distanceMeters` is truthy.  In
directions routes the spec's sentence does hold: an absent duration yields
the text `"Unknown duration"` and the value comes from `staticDuration`
(`"123s"` giving `123`, absent giving `0`).  When no element throws and the
upstream reply is well-formed, the call returns a success envelope. -/
theorem C3_duration_amended :
    (∀ it : RouteItem, it.duration = some "123s" →
      jsTruthyNat it.distanceMeters = true →
      buildElement it = .ok ⟨jsOrStr it.status "OK", ⟨"123", some 123⟩,
        ⟨formatKm (it.distanceMeters.getD 0), it.distanceMeters⟩⟩) ∧
    (∀ it : RouteItem, it.duration = some "123s" →
      jsTruthyNat it.distanceMeters = false →
      buildElement it = .ok ⟨jsOrStr it.status "OK", ⟨"123", some 0⟩,
        ⟨"Unknown", it.distanceMeters⟩⟩) ∧
    (∀ it : RouteItem, it.duration = none → jsTruthyNat it.distanceMeters = false →
      buildElement it = .ok ⟨jsOrStr it.status "OK", ⟨"Unknown", some 0⟩,
        ⟨"Unknown", it.distanceMeters⟩⟩) ∧
    (∀ it : RouteItem, it.duration = none → jsTruthyNat it.distanceMeters = true →
      buildElement it = .error undefReplaceMsg) ∧
    (∀ tm (r : DirRoute), r.duration = none →
      (routeOut tm r).duration.text = "Unknown duration") ∧
    (∀ tm (r : DirRoute), r.staticDuration = some "123s" →
      (routeOut tm r).duration.value = some 123) ∧
    (∀ tm (r : DirRoute), r.staticDuration = none →
      (routeOut tm r).duration.value = some 0) ∧
    (∀ (os ds : List String) (st : String) (data : List RouteItem),
      (∀ it ∈ data, goodItem os.length ds.length it) →
      (match data.head? with
       | some it => it.error.isSome
       | none => false) = false →
      ∃ rows, handleDistanceMatrixResp os ds 200 st data =
        .ok ⟨[⟨"text", renderDMSuccess os ds rows⟩], false⟩) := by
  have e1 : jsReplaceFirst "s" "" "123s" = "123" := by decide
  have e2 : parseIntJS "123" = some 123 := by decide
  refine ⟨?_, ?_, ?_, ?_, ?_, ?_, ?_, ?_⟩
  · intro it h1 h2
    simp [buildElement, h1, h2, jsTruthyStr, e1, e2, Bind.bind, Except.bind,
      pure, Except.pure]
  · intro it h1 h2
    simp [buildElement, h1, h2, jsTruthyStr, e1, Bind.bind, Except.bind,
      pure, Except.pure]
  · intro it h1 h2
    simp [buildElement, h1, h2, jsTruthyStr, Bind.bind, Except.bind,
      pure, Except.pure]
  · intro it h1 h2
    simp [buildElement, h1, h2, Bind.bind, Except.bind, pure, Except.pure]
  · intro tm r h
    simp [routeOut, h, jsTruthyStr]
  · intro tm r h
    simp [routeOut, h, jsTruthyStr, e1, e2]
  · intro tm r h
    simp [routeOut, h, jsTruthyStr]
  · intro os ds st data hgood herr
    obtain ⟨mat, hfold, -, -⟩ :=
      dmFold_cell os.length ds.length data _ (dims_init os.length ds.length) hgood
    refine ⟨mat, ?_⟩
    simp [handleDistanceMatrixResp, herr, dmReshapeRows, hfold, Bind.bind,
      Except.bind, pure, Except.pure]

/-- Witness for C3 (amended) at a concrete element with both fields
present. -/
theorem C3_duration_amended_witness :
    buildElement ⟨some 0, some 0, none, some 5000, some "123s", none⟩ =
      .ok ⟨"OK", ⟨"123", some 123⟩, ⟨"5.0 km", some 5000⟩⟩ := by
  exact (C3_duration_amended.1 ⟨some 0, some 0, none, some 5000, some "123s", none⟩
    rfl (by decide)).trans (by rfl)

/-- C4 (counterexample): the documented output schema of `search_places`
contains the key `rating`, yet for a place whose upstream `rating` is
absent the serialized reshaped place omits the `rating` key instead of
emitting a default. -/
theorem C4_omitted_key_counterexample :
    "rating" ∈ documentedSearchKeys ∧
    "rating" ∉ searchPlacePresentKeys
      ⟨some ⟨"Blue Bottle"⟩, some "1 Ferry Building", some ⟨37, -122⟩,
       some "pid1", none, some ["cafe"]⟩ := by
  constructor <;> decide

/-- C4 (amended): in `search_places` an absent optional upstream field such
as `rating` leaves its key omitted from the serialized output (and a
present one keeps it); in `place_details`, the output fields built with an
explicit fallback do produce the documented defaults (empty string, `0`,
`false`, empty list) when the upstream field is absent. -/
theorem C4_defaults_amended :
    (∀ p : SPlace, p.rating = none → "rating" ∉ searchPlacePresentKeys p) ∧
    (∀ p : SPlace, ∀ r, p.rating = some r → "rating" ∈ searchPlacePresentKeys p) ∧
    (∀ p : PlaceData, p.displayName = none → (placeDetailsReshape p).name = "") ∧
    (∀ p : PlaceData, p.websiteUri = none → (placeDetailsReshape p).website = "") ∧
    (∀ p : PlaceData, p.rating = none → (placeDetailsReshape p).rating = 0) ∧
    (∀ p : PlaceData, p.userRatingCount = none →
      (placeDetailsReshape p).user_ratings_total = 0) ∧
    (∀ p : PlaceData, p.types = none → (placeDetailsReshape p).types = []) ∧
    (∀ p : PlaceData, p.reviews = none → (placeDetailsReshape p).reviews = []) ∧
    (∀ p : PlaceData, p.photos = none → (placeDetailsReshape p).photos = []) ∧
    (∀ p : PlaceData, p.dineIn = none → (placeDetailsReshape p).dine_in = false) ∧
    (∀ p : PlaceData, p.businessStatus = none →
      (placeDetailsReshape p).business_status = "") ∧
    (∀ p : PlaceData, p.priceLevel = none →
      (placeDetailsReshape p).price_level = .num 0) := by
  refine ⟨?_, ?_, ?_, ?_, ?_, ?_, ?_, ?_, ?_, ?_, ?_, ?_⟩
  · intro p h
    simp [searchPlacePresentKeys, reshapeSearchPlace, h]
  · intro p r h
    simp [searchPlacePresentKeys, reshapeSearchPlace, h]
  all_goals intro p h
  all_goals
    simp [placeDetailsReshape, h, jsOrStr, jsOrRat, jsOrNat, jsOrBool, jsTruthyStr]

/-- Witness for C4 (amended) at a concrete place without a rating. -/
theorem C4_defaults_amended_witness :
    "rating" ∉ searchPlacePresentKeys
      ⟨some ⟨"Blue Bottle"⟩, some "1 Ferry Building", some ⟨37, -122⟩,
       some "pid1", none, some ["cafe"]⟩ :=
  C4_defaults_amended.1 _ rfl

/-- C5 (counterexample): a flat result list in which the single pair (0,0)
appears exactly once can still fail reassembly: a result with
`distanceMeters` present and `duration` absent makes the element
construction throw, so no output matrix is produced and the whole call
becomes an error. -/
theorem C5_reassembly_counterexample :
    dmReshapeRows ["A"] ["B"] [⟨some 0, some 0, some "OK", some 5, none, none⟩] =
      .error undefReplaceMsg ∧
    handleDistanceMatrixResp ["A"] ["B"] 200 "OK"
      [⟨some 0, some 0, some "OK", some 5, none, none⟩] =
      .error undefReplaceMsg := by
  constructor <;> rfl

/-- C5 (amended): given N origins and M destinations and a flat result list
in which every pair (i, j) with i < N, j < M appears exactly once, and
provided no result has `distanceMeters` truthy with `duration` absent
(which would throw), the reassembled matrix has exactly N rows of M
elements, every cell holds exactly the element built from the result with
matching indices, and no index access is out of range (the fold returns
`ok`). -/
theorem C5_reassembly_amended (origins destinations : List String)
    (data : List RouteItem)
    (hcover : ∀ i j, i < origins.length → j < destinations.length →
      (data.filter (matchesCell i j)).length = 1)
    (hin : ∀ it ∈ data, ∃ i j, it.originIndex = some i ∧
      it.destinationIndex = some j ∧ i < origins.length ∧ j < destinations.length)
    (hnothrow : ∀ it ∈ data,
      ¬(it.duration = none ∧ jsTruthyNat it.distanceMeters = true)) :
    ∃ mat, dmReshapeRows origins destinations data = .ok mat ∧
      mat.length = origins.length ∧
      (∀ r ∈ mat, r.elements.length = destinations.length) ∧
      (∀ it ∈ data, ∀ i j, it.originIndex = some i → it.destinationIndex = some j →
        ∃ e, buildElement it = .ok e ∧ cellGet mat i j = some (some e)) ∧
      (∀ i j, i < origins.length → j < destinations.length →
        ∃ e, cellGet mat i j = some (some e)) := by
  have hgood : ∀ it ∈ data, goodItem origins.length destinations.length it := by
    intro it hit
    obtain ⟨i, j, h1, h2, h3, h4⟩ := hin it hit
    exact ⟨i, j, h1, h2, h3, h4, hnothrow it hit⟩
  obtain ⟨mat, hfold, hdims, hcell⟩ :=
    dmFold_cell origins.length destinations.length data _
      (dims_init origins.length destinations.length) hgood
  refine ⟨mat, hfold, hdims.1, hdims.2, ?_, ?_⟩
  · intro it hit i j hi hj
    obtain ⟨i', j', h1, h2, h3, h4⟩ := hin it hit
    have hiN : i < origins.length := by
      rw [hi] at h1
      rwa [Option.some_inj.mp h1.symm] at h3
    have hjM : j < destinations.length := by
      rw [hj] at h2
      rwa [Option.some_inj.mp h2.symm] at h4
    specialize hcell i j hiN hjM
    have hmem : it ∈ data.filter (matchesCell i j) :=
      List.mem_filter.mpr ⟨hit, (matchesCell_iff i j it).mpr ⟨hi, hj⟩⟩
    obtain ⟨y, hy⟩ := List.length_eq_one.mp (hcover i j hiN hjM)
    rw [hy, List.getLast?_singleton] at hcell
    rw [hy, List.mem_singleton] at hmem
    obtain ⟨e, hbe, hc⟩ := hcell
    exact ⟨e, hmem ▸ hbe, hc⟩
  · intro i j hiN hjM
    specialize hcell i j hiN hjM
    obtain ⟨y, hy⟩ := List.length_eq_one.mp (hcover i j hiN hjM)
    rw [hy, List.getLast?_singleton] at hcell
    obtain ⟨e, -, hc⟩ := hcell
    exact ⟨e, hc⟩

/-- Witness for C5 (amended) at a concrete 1 × 1 instance. -/
theorem C5_reassembly_amended_witness :
    ∃ mat, dmReshapeRows ["A"] ["B"]
        [⟨some 0, some 0, some "OK", some 5000, some "600s", none⟩] = .ok mat ∧
      mat.length = 1 ∧
      (∀ r ∈ mat, r.elements.length = 1) ∧
      (∀ it ∈ [(⟨some 0, some 0, some "OK", some 5000, some "600s", none⟩ : RouteItem)],
        ∀ i j, it.originIndex = some i → it.destinationIndex = some j →
        ∃ e, buildElement it = .ok e ∧ cellGet mat i j = some (some e)) ∧
      (∀ i j, i < 1 → j < 1 → ∃ e, cellGet mat i j = some (some e)) :=
  C5_reassembly_amended ["A"] ["B"]
    [⟨some 0, some 0, some "OK", some 5000, some "600s", none⟩]
    (by
      intro i j hi hj
      simp only [List.length_singleton] at hi hj
      have hi0 : i = 0 := by omega
      have hj0 : j = 0 := by omega
      subst hi0; subst hj0
      decide)
    (by
      intro it hit
      rw [List.mem_singleton] at hit
      subst hit
      exact ⟨0, 0, rfl, rfl, by decide, by decide⟩)
    (by
      intro it hit
      rw [List.mem_singleton] at hit
      subst hit
      rintro ⟨hd, -⟩
      cases hd)

/-- C6 (counterexample): for the photo resource name
`places/P123/photos/PH456` the emitted `photo_reference` is `P123` — the
place-id segment — not the photo identifier `PH456` that remains after the
`places/<place_id>/photos/` prefix. -/
theorem C6_photo_reference_counterexample :
    (photoOut ⟨"places/P123/photos/PH456", some 100, some 200, none⟩).photo_reference
      = "P123" ∧ ("P123" : String) ≠ "PH456" := by
  constructor <;> decide

/-- C6 (amended): for a resource name of the form
`places/<pid>/photos/<ph>` with a slash-free `pid` and a line-break-free
`ph`, the emitted `photo_reference` equals `pid`: the code removes the
literal `places/` and everything from `/photos/` onward, keeping the
place-id segment rather than the photo identifier. -/
theorem C6_photo_reference_amended (pid ph : List Char) (hpid : '/' ∉ pid)
    (hph : ∀ c ∈ ph, jsDotB c = true) :
    photoReference ⟨"places/".data ++ pid ++ "/photos/".data ++ ph⟩ = ⟨pid⟩ := by
  unfold photoReference jsReplaceFirstL
  rw [show ("places/".data ++ pid ++ "/photos/".data ++ ph : List Char) =
    "places/".data ++ (pid ++ "/photos/".data ++ ph) by simp]
  rw [splitOnFirst_self "places/".data (pid ++ "/photos/".data ++ ph) (by decide)]
  show String.mk (stripPhotosTail ([] ++ [] ++ (pid ++ "/photos/".data ++ ph))) = _
  simp only [List.nil_append]
  unfold stripPhotosTail
  rw [splitOnFirst_no_slash pid ph hpid]
  simp [dropWhile_nil_of_all jsDotB ph hph]

/-- Witness for C6 (amended) at the concrete name
`places/P123/photos/PH456`. -/
theorem C6_photo_reference_amended_witness :
    photoReference ⟨"places/".data ++ "P123".data ++ "/photos/".data ++ "PH456".data⟩ =
      ⟨"P123".data⟩ :=
  C6_photo_reference_amended "P123".data "PH456".data (by decide) (by decide)

/-- C7: in both distance_matrix and directions request bodies,
`routingPreference:"TRAFFIC_AWARE"` is present exactly when the mapped
travel mode is `DRIVE` or `TWO_WHEELER`; `mode="two_wheeler"` sends
`travelMode:"TWO_WHEELER"` with the preference, and `mode="transit"` omits
the preference entirely. -/
theorem C7_traffic_aware_iff_drive_or_two_wheeler :
    (∀ os ds (m : Option String),
      ((dmRequestBody os ds m).routingPreference = some "TRAFFIC_AWARE" ↔
        (dmRequestBody os ds m).travelMode = "DRIVE" ∨
        (dmRequestBody os ds m).travelMode = "TWO_WHEELER")) ∧
    (∀ os ds, (dmRequestBody os ds (some "two_wheeler")).travelMode = "TWO_WHEELER" ∧
      (dmRequestBody os ds (some "two_wheeler")).routingPreference =
        some "TRAFFIC_AWARE") ∧
    (∀ os ds, (dmRequestBody os ds (some "transit")).routingPreference = none) ∧
    (∀ o d (m : Option String),
      ((dirRequestBody o d m).routingPreference = some "TRAFFIC_AWARE" ↔
        (dirRequestBody o d m).travelMode = "DRIVE" ∨
        (dirRequestBody o d m).travelMode = "TWO_WHEELER")) ∧
    (∀ o d, (dirRequestBody o d (some "two_wheeler")).travelMode = "TWO_WHEELER" ∧
      (dirRequestBody o d (some "two_wheeler")).routingPreference =
        some "TRAFFIC_AWARE") ∧
    (∀ o d, (dirRequestBody o d (some "transit")).routingPreference = none) := by
  refine ⟨?_, ?_, ?_, ?_, ?_, ?_⟩
  · intro os ds m
    simp only [dmRequestBody]
    by_cases h1 : googleTravelMode m = "DRIVE" <;>
    by_cases h2 : googleTravelMode m = "TWO_WHEELER" <;>
      simp [h1, h2]
  · intro os ds; exact ⟨rfl, rfl⟩
  · intro os ds; rfl
  · intro o d m
    simp only [dirRequestBody]
    by_cases h1 : googleTravelMode m = "DRIVE" <;>
    by_cases h2 : googleTravelMode m = "TWO_WHEELER" <;>
      simp [h1, h2]
  · intro o d; exact ⟨rfl, rfl⟩
  · intro o d; rfl

/-- C8 (counterexample): the price-level mapping is not total into the
documented integers: `priceLevelMap["toString"]` finds the `toString`
function inherited from `Object.prototype`, which is not nullish, so the
`?? 0` fallback never fires and the call returns that function — not `0`;
likewise for `__proto__`. -/
theorem C8_price_level_counterexample :
    getPriceLevelValue "toString" = .inherited "toString" ∧
    PriceLevelValue.inherited "toString" ≠ .num 0 ∧
    getPriceLevelValue "__proto__" = .inherited "__proto__" := by
  refine ⟨by decide, by decide, by decide⟩

/-- C8 (amended): the five enum strings map to 0, 1, 2, 3, 4, and every
string that is neither one of them nor an `Object.prototype` property name
maps to `0`; but the `Object.prototype` property names (`toString`,
`constructor`, `valueOf`, `__proto__`, `hasOwnProperty`, ...) return the
inherited non-nullish value instead of `0`, because `??` only falls back on
`null`/`undefined`. -/
theorem C8_price_level_amended :
    getPriceLevelValue "PRICE_LEVEL_FREE" = .num 0 ∧
    getPriceLevelValue "PRICE_LEVEL_INEXPENSIVE" = .num 1 ∧
    getPriceLevelValue "PRICE_LEVEL_MODERATE" = .num 2 ∧
    getPriceLevelValue "PRICE_LEVEL_EXPENSIVE" = .num 3 ∧
    getPriceLevelValue "PRICE_LEVEL_VERY_EXPENSIVE" = .num 4 ∧
    (∀ s : String,
      s ∉ ["PRICE_LEVEL_FREE", "PRICE_LEVEL_INEXPENSIVE", "PRICE_LEVEL_MODERATE",
           "PRICE_LEVEL_EXPENSIVE", "PRICE_LEVEL_VERY_EXPENSIVE"] →
      s ∉ objectProtoKeys → getPriceLevelValue s = .num 0) ∧
    (∀ s : String,
      s ∉ ["PRICE_LEVEL_FREE", "PRICE_LEVEL_INEXPENSIVE", "PRICE_LEVEL_MODERATE",
           "PRICE_LEVEL_EXPENSIVE", "PRICE_LEVEL_VERY_EXPENSIVE"] →
      s ∈ objectProtoKeys → getPriceLevelValue s = .inherited s) := by
  refine ⟨by decide, by decide, by decide, by decide, by decide, ?_, ?_⟩
  · intro s hs hp
    simp only [List.mem_cons, List.not_mem_nil, or_false, not_or] at hs
    obtain ⟨h1, h2, h3, h4, h5⟩ := hs
    have b1 : (s == "PRICE_LEVEL_FREE") = false := beq_eq_false_iff_ne.mpr h1
    have b2 : (s == "PRICE_LEVEL_INEXPENSIVE") = false := beq_eq_false_iff_ne.mpr h2
    have b3 : (s == "PRICE_LEVEL_MODERATE") = false := beq_eq_false_iff_ne.mpr h3
    have b4 : (s == "PRICE_LEVEL_EXPENSIVE") = false := beq_eq_false_iff_ne.mpr h4
    have b5 : (s == "PRICE_LEVEL_VERY_EXPENSIVE") = false := beq_eq_false_iff_ne.mpr h5
    simp [getPriceLevelValue, priceLevelMap, List.lookup, b1, b2, b3, b4, b5, hp]
  · intro s hs hp
    simp only [List.mem_cons, List.not_mem_nil, or_false, not_or] at hs
    obtain ⟨h1, h2, h3, h4, h5⟩ := hs
    have b1 : (s == "PRICE_LEVEL_FREE") = false := beq_eq_false_iff_ne.mpr h1
    have b2 : (s == "PRICE_LEVEL_INEXPENSIVE") = false := beq_eq_false_iff_ne.mpr h2
    have b3 : (s == "PRICE_LEVEL_MODERATE") = false := beq_eq_false_iff_ne.mpr h3
    have b4 : (s == "PRICE_LEVEL_EXPENSIVE") = false := beq_eq_false_iff_ne.mpr h4
    have b5 : (s == "PRICE_LEVEL_VERY_EXPENSIVE") = false := beq_eq_false_iff_ne.mpr h5
    simp [getPriceLevelValue, priceLevelMap, List.lookup, b1, b2, b3, b4, b5, hp]

/-- Witness for C8 (amended) at a string outside both the table and the
prototype chain. -/
theorem C8_price_level_amended_witness :
    getPriceLevelValue "PRICE_LEVEL_UNSPECIFIED" = .num 0 :=
  C8_price_level_amended.2.2.2.2.2.1 "PRICE_LEVEL_UNSPECIFIED" (by decide) (by decide)

/-- C9: a tool-call request whose name is not one of the seven registered
names returns, for every possible transcoder behaviour (hence without
invoking any transcoder), the error result with text
`Unknown tool: <name>`. -/
theorem C9_unknown_tool_envelope (h : Handlers) (req : CallRequest)
    (hname : req.name ∉ registeredToolNames) :
    dispatch h req = ⟨[⟨"text", "Unknown tool: " ++ req.name⟩], true⟩ := by
  unfold dispatch dispatchCore
  split
  all_goals
    first
    | (simp [catchEnvelope, unknownToolResult]; done)
    | (exfalso; exact hname (by simp_all [registeredToolNames, MAPS_TOOLS,
        GEOCODE_TOOL, REVERSE_GEOCODE_TOOL, SEARCH_PLACES_TOOL, PLACE_DETAILS_TOOL,
        DISTANCE_MATRIX_TOOL, ELEVATION_TOOL, DIRECTIONS_TOOL]))

/-- Witness for C9 at the concrete name `maps_nonexistent`. -/
theorem C9_unknown_tool_envelope_witness :
    dispatch throwingHandlers ⟨"maps_nonexistent", emptyArgs⟩ =
      ⟨[⟨"text", "Unknown tool: maps_nonexistent"⟩], true⟩ :=
  C9_unknown_tool_envelope throwingHandlers ⟨"maps_nonexistent", emptyArgs⟩
    (by decide)

/-- C10: when a geocode or reverse-geocode upstream response has status
`OK` with an empty results list, the handler throws while dereferencing
`results[0]` (so it never returns a success envelope), and the dispatcher's
catch converts the exception into an `isError:true` result. -/
theorem C10_empty_results_throw (data : GeocodeData) (h1 : data.status = "OK")
    (h2 : data.results = []) :
    handleGeocodeResp data = .error undefGeometryMsg ∧
    handleReverseGeocodeResp data = .error undefFormattedAddrMsg ∧
    (catchEnvelope (handleGeocodeResp data)).isError = true ∧
    (catchEnvelope (handleReverseGeocodeResp data)).isError = true := by
  simp [handleGeocodeResp, handleReverseGeocodeResp, h1, h2, catchEnvelope]

/-- Witness for C10 at the concrete response with status `OK` and no
results. -/
theorem C10_empty_results_throw_witness :
    handleGeocodeResp ⟨"OK", none, []⟩ = .error undefGeometryMsg ∧
    handleReverseGeocodeResp ⟨"OK", none, []⟩ = .error undefFormattedAddrMsg ∧
    (catchEnvelope (handleGeocodeResp ⟨"OK", none, []⟩)).isError = true ∧
    (catchEnvelope (handleReverseGeocodeResp ⟨"OK", none, []⟩)).isError = true :=
  C10_empty_results_throw ⟨"OK", none, []⟩ rfl rfl

end GMaps
